import Mathlib

/-!
Shallow embedding of the personal-finance API backend (FastAPI + SQLAlchemy)
for verification of its specification.

Conventions of the embedding:
* Money amounts (Python `float` columns) are modelled as `ℚ`.
* A calendar date (`datetime.date`, what SQL `func.date(...)` yields) is an
  integer day index `ℤ`; date comparisons in the source become `≤` on `ℤ`.
* A `datetime.datetime` is a day index together with a rational time-of-day,
  so that "date-only comparison" (the source's `func.date(Transaction.date)`)
  is projection on the day component.
* The database session is a record of lists of rows, in insertion order;
  `query(...).filter(...).first()` is `List.find?`, `.all()` is `List.filter`,
  `func.sum(...).scalar() or 0` is a list sum (empty sum is 0, as in SQL+`or 0`).
* A route handler is a total function into `Except HError ...`;
  `raise HTTPException(status, detail)` is `Except.error ⟨status, detail⟩`,
  and an uncaught Python exception (AttributeError, pydantic ValidationError)
  is `Except.error` with status 500.
* Python integer division/modulo on `ℤ` are `Int.fdiv`/`Int.emod`
  (floor division; remainder with the divisor's sign), which agree with
  Python `//` and `%` for the positive divisors used here.
-/

namespace App

/-- A timestamp as stored in a `DateTime` column: calendar day plus
time-of-day.  `func.date` keeps only `day`. -/
structure DateTime where
  day : ℤ
  tod : ℚ
  deriving DecidableEq, Repr

/-- Full-precision comparison of datetimes (day first, then time of day),
as Python compares `datetime` values. -/
def DateTime.lt (a b : DateTime) : Bool :=
  a.day < b.day || (a.day == b.day && a.tod < b.tod)

/-- `categories` table row (`app/models/category.py`). -/
structure Category where
  id : ℕ
  name : String
  description : Option String
  user_id : ℕ
  deriving DecidableEq, Repr

/-- `transactions` table row (`app/models/transaction.py`). -/
structure Transaction where
  id : ℕ
  amount : ℚ
  description : String
  category_id : ℕ
  date : DateTime
  user_id : ℕ
  deriving DecidableEq, Repr

/-- `budgets` table row (`app/models/budget.py`); `start_date`/`end_date`
are `Date` columns, hence day indices. -/
structure Budget where
  id : ℕ
  amount : ℚ
  start_date : ℤ
  end_date : ℤ
  category_id : ℕ
  user_id : ℕ
  name : Option String
  deriving DecidableEq, Repr

/-- The relational store visible to the routes. -/
structure DB where
  categories : List Category
  transactions : List Transaction
  budgets : List Budget
  deriving DecidableEq, Repr

/-- An `HTTPException(status_code, detail)`, or a 500 for an uncaught
Python-level error. -/
structure HError where
  status : ℕ
  detail : String
  deriving DecidableEq, Repr

instance {ε α : Type} [DecidableEq ε] [DecidableEq α] : DecidableEq (Except ε α) :=
  fun a b =>
    match a, b with
    | .error e1, .error e2 => decidable_of_iff (e1 = e2) (by simp)
    | .ok x, .ok y => decidable_of_iff (x = y) (by simp)
    | .error _, .ok _ => isFalse (by simp)
    | .ok _, .error _ => isFalse (by simp)

/-! ## Rate limiter (`app/utils/rate_limiter.py`)

`RateLimiter.request_counts` is a `defaultdict(list)` from client address to
the list of recorded request timestamps (`time.time()` floats, modelled as
`ℚ`).  We embed the dictionary as an association list with default `[]`. -/

/-- The `request_counts` table: client address ↦ recorded timestamps. -/
def RLState := List (String × List ℚ)

/-- `defaultdict` lookup: missing key reads as `[]`. -/
def RLState.get : RLState → String → List ℚ
  | [], _ => []
  | p :: rest, ip => if p.1 == ip then p.2 else RLState.get rest ip

/-- `defaultdict` store: replace the key's list (inserting if absent). -/
def RLState.set (st : RLState) (ip : String) (l : List ℚ) : RLState :=
  match st with
  | [] => [(ip, l)]
  | p :: rest => if p.1 == ip then (ip, l) :: rest else p :: RLState.set rest ip l

/-- `RateLimiter.is_rate_limited` for one call from client `ip` at time `t`
(`requests_per_minute` is the constructor argument, default 60):
prune timestamps older than 60 seconds, reject if the pruned count has
reached the ceiling, otherwise record `t`.  Returns (rejected?, new state). -/
def is_rate_limited (requests_per_minute : ℕ) (st : RLState) (ip : String)
    (t : ℚ) : Bool × RLState :=
  let pruned := (st.get ip).filter (fun x => x > t - 60)
  if pruned.length ≥ requests_per_minute then
    (true, st.set ip pruned)
  else
    (false, st.set ip (pruned ++ [t]))

/-- Run a sequence of requests `(ip, t)` through the limiter, collecting each
call's rejected/accepted answer. -/
def run_limiter (requests_per_minute : ℕ) :
    RLState → List (String × ℚ) → List Bool × RLState
  | st, [] => ([], st)
  | st, (ip, t) :: rest =>
    let r := is_rate_limited requests_per_minute st ip t
    let rec' := run_limiter requests_per_minute r.2 rest
    (r.1 :: rec'.1, rec'.2)

/-! ## Month-window arithmetic of the reports (`app/routes/reports.py`)

`monthly_spending` (lines 90–96) computes the first month of its window as

    start_year  = today.year - ((today.month - months) // 12)
    r           = (today.month - months) % 12
    start_month = r + 1 if r > 0 else 12

`transaction_trends` with `interval="monthly"` (lines 153–159) computes

    year  = today.year - timeframe // 12
    month = today.month - timeframe % 12
    if month <= 0: month += 12; year -= 1
-/

/-- Start (year, month) computed by `monthly_spending`. -/
def monthly_spending_start (year month months : ℤ) : ℤ × ℤ :=
  let r := Int.emod (month - months) 12
  (year - Int.fdiv (month - months) 12, if r > 0 then r + 1 else 12)

/-- Start (year, month) computed by `transaction_trends` for monthly
intervals. -/
def transaction_trends_start (year month timeframe : ℤ) : ℤ × ℤ :=
  let y := year - Int.fdiv timeframe 12
  let m := month - Int.emod timeframe 12
  if m ≤ 0 then (y - 1, m + 12) else (y, m)

/-- The month-borrowing rule stated by the specification:
`new_month = ((current_month - months - 1) mod 12) + 1`. -/
def spec_month_rule (month months : ℤ) : ℤ :=
  Int.emod (month - months - 1) 12 + 1

/-! ## Single-entity reads (`app/routes/{budgets,transactions,categories}.py`)

Each read filters by the entity id *and* the authenticated user's id and
raises 404 when `first()` returns `None`. -/

/-- `read_budget` (budgets.py lines 136–148). -/
def read_budget (u : ℕ) (db : DB) (budget_id : ℕ) : Except HError Budget :=
  match db.budgets.find? (fun b => b.id == budget_id && b.user_id == u) with
  | none => .error ⟨404, "Budget not found"⟩
  | some b => .ok b

/-- `read_transaction` (transactions.py lines 133–151). -/
def read_transaction (u : ℕ) (db : DB) (transaction_id : ℕ) :
    Except HError Transaction :=
  match db.transactions.find? (fun t => t.id == transaction_id && t.user_id == u) with
  | none => .error ⟨404, "Transaction with ID " ++ toString transaction_id ++ " not found"⟩
  | some t => .ok t

/-- `read_category` (categories.py lines 55–67). -/
def read_category (u : ℕ) (db : DB) (category_id : ℕ) : Except HError Category :=
  match db.categories.find? (fun c => c.id == category_id && c.user_id == u) with
  | none => .error ⟨404, "Category not found"⟩
  | some c => .ok c

/-- Autoincrement primary key for a freshly inserted budget row. -/
def next_budget_id (db : DB) : ℕ := (db.budgets.map (·.id)).foldr max 0 + 1

/-- Autoincrement primary key for a freshly inserted transaction row. -/
def next_transaction_id (db : DB) : ℕ :=
  (db.transactions.map (·.id)).foldr max 0 + 1

/-! ## Budget writes (`app/routes/budgets.py`) -/

/-- `BudgetCreate` request body (schemas.py lines 118–126): `start_date` is
optional (`None` allowed), the schema validates `amount > 0`. -/
structure BudgetCreate where
  amount : ℚ
  category_id : ℕ
  start_date : Option ℤ
  end_date : ℤ
  name : Option String
  deriving DecidableEq, Repr

/-- The overlap filter of `create_budget` (budgets.py lines 36–41), applied to
an existing row `b`.  In SQL, when the input `start_date` is `NULL` the
comparison `Budget.end_date >= NULL` is `NULL` and the filter matches no row,
so the overlap check never fires for inputs without a start date. -/
def budget_overlap (u : ℕ) (inp : BudgetCreate) (b : Budget) : Bool :=
  b.category_id == inp.category_id && b.user_id == u &&
    (match inp.start_date with
     | none => false
     | some s => decide (b.end_date ≥ s) && decide (b.start_date ≤ inp.end_date))

/-- `create_budget` (budgets.py lines 20–62): category ownership check,
overlap check, then insert with `start_date or date.today()`. -/
def create_budget (today : ℤ) (u : ℕ) (db : DB) (inp : BudgetCreate) :
    Except HError (DB × Budget) :=
  match db.categories.find? (fun c => c.id == inp.category_id && c.user_id == u) with
  | none => .error ⟨404, "Category not found"⟩
  | some _ =>
    match db.budgets.find? (budget_overlap u inp) with
    | some _ => .error ⟨400, "A budget for this category and time period already exists"⟩
    | none =>
      let nb : Budget :=
        ⟨next_budget_id db, inp.amount, inp.start_date.getD today, inp.end_date,
          inp.category_id, u, inp.name⟩
      .ok ({ db with budgets := db.budgets ++ [nb] }, nb)

/-- `update_budget` (budgets.py lines 150–183): looks up the budget by id and
owner, checks the category, then overwrites the fields.  There is no overlap
check on this path. -/
def update_budget (u : ℕ) (db : DB) (budget_id : ℕ) (inp : BudgetCreate) :
    Except HError (DB × Budget) :=
  match db.budgets.find? (fun b => b.id == budget_id && b.user_id == u) with
  | none => .error ⟨404, "Budget not found"⟩
  | some old =>
    match db.categories.find? (fun c => c.id == inp.category_id && c.user_id == u) with
    | none => .error ⟨404, "Category not found"⟩
    | some _ =>
      let nb : Budget :=
        { old with
          amount := inp.amount
          start_date := inp.start_date.getD old.start_date
          end_date := inp.end_date
          category_id := inp.category_id
          name := inp.name }
      .ok ({ db with
              budgets := db.budgets.map
                (fun b => if b.id == budget_id && b.user_id == u then nb else b) },
            nb)

/-- `delete_category` (categories.py lines 92–108): ownership-scoped lookup,
then deletion with no referential check against budgets or transactions. -/
def delete_category (u : ℕ) (db : DB) (category_id : ℕ) : Except HError DB :=
  match db.categories.find? (fun c => c.id == category_id && c.user_id == u) with
  | none => .error ⟨404, "Category not found"⟩
  | some _ =>
    .ok { db with
          categories := db.categories.filter
            (fun c => !(c.id == category_id && c.user_id == u)) }

/-! ## Transaction writes (`app/routes/transactions.py`)

The request body schema is `TransactionCreate` (schemas.py lines 67–99),
which subclasses plain `BaseModel`: beyond type coercion and timezone
stripping it validates nothing.  The declared value constraints
(`gt=0`, description length, ≤2 decimal places, no future date) live on
`TransactionBase` (schemas.py lines 37–65), which `TransactionCreate` does
not inherit. -/

/-- `TransactionCreate` request body: a well-typed but otherwise unchecked
payload. -/
structure TransactionCreate where
  amount : ℚ
  description : String
  category_id : ℕ
  date : Option DateTime
  deriving DecidableEq, Repr

/-- The validators declared on `TransactionBase` (schemas.py lines 37–65):
amount positive with at most 2 decimal places, description 3–100 characters
and not only whitespace, positive category id, and date not after
`datetime.now()`. -/
def transaction_base_valid (now : DateTime) (amount : ℚ) (description : String)
    (category_id : ℕ) (date : Option DateTime) : Bool :=
  decide (amount > 0) && decide ((100 * amount).den = 1) &&
    decide (description.length ≥ 3) && decide (description.length ≤ 100) &&
    decide (category_id > 0) && !(description.trim == "") &&
    (match date with
     | none => true
     | some d => !(DateTime.lt now d))

/-- `create_transaction` (transactions.py lines 21–87): category ownership
check, default the date to `datetime.now()`, insert.  No value validation is
performed on the `TransactionCreate` payload. -/
def create_transaction (now : DateTime) (u : ℕ) (db : DB)
    (inp : TransactionCreate) : Except HError (DB × Transaction) :=
  match db.categories.find? (fun c => c.id == inp.category_id && c.user_id == u) with
  | none =>
    .error ⟨404, "Category with ID " ++ toString inp.category_id ++
      " not found or does not belong to you"⟩
  | some _ =>
    let nt : Transaction :=
      ⟨next_transaction_id db, inp.amount, inp.description, inp.category_id,
        inp.date.getD now, u⟩
    .ok ({ db with transactions := db.transactions ++ [nt] }, nt)

/-- `update_transaction` (transactions.py lines 153–210): ownership-scoped
lookup, category check, overwrite amount/description/category and — when a
date is supplied — the date.  Again no value validation. -/
def update_transaction (u : ℕ) (db : DB) (transaction_id : ℕ)
    (inp : TransactionCreate) : Except HError (DB × Transaction) :=
  match db.transactions.find? (fun t => t.id == transaction_id && t.user_id == u) with
  | none =>
    .error ⟨404, "Transaction with ID " ++ toString transaction_id ++ " not found"⟩
  | some old =>
    match db.categories.find? (fun c => c.id == inp.category_id && c.user_id == u) with
    | none =>
      .error ⟨404, "Category with ID " ++ toString inp.category_id ++
        " not found or does not belong to you"⟩
    | some _ =>
      let nt : Transaction :=
        { old with
          amount := inp.amount
          description := inp.description
          category_id := inp.category_id
          date := inp.date.getD old.date }
      .ok ({ db with
              transactions := db.transactions.map
                (fun t => if t.id == transaction_id && t.user_id == u then nt else t) },
            nt)

/-! ## Aggregation core -/

/-- `func.sum(Transaction.amount) ... .scalar() or 0`: the sum of the amounts
of a list of rows, 0 when empty. -/
def sum_amounts (l : List Transaction) : ℚ := (l.map (·.amount)).sum

/-- The transaction filter shared by `get_budget_status` (budgets.py lines
103–108) and `budget_performance` (reports.py lines 218–223): same owner,
matching category, and `func.date(Transaction.date)` within
`[start_date, end_date]` inclusive. -/
def budget_window_filter (u : ℕ) (category_id : ℕ) (s e : ℤ)
    (t : Transaction) : Bool :=
  t.user_id == u && t.category_id == category_id &&
    decide (s ≤ t.date.day) && decide (t.date.day ≤ e)

/-- Error-propagating list map: the Python `for` loop over budgets stops at
the first uncaught exception. -/
def mapE {α β : Type} (f : α → Except HError β) : List α → Except HError (List β)
  | [] => .ok []
  | a :: as =>
    match f a with
    | .error e => .error e
    | .ok b =>
      match mapE f as with
      | .error e => .error e
      | .ok bs => .ok (b :: bs)

/-- The `BudgetStatus` response schema (schemas.py lines 136–143); its
`category` field is a required (non-optional) `Category`. -/
structure BudgetStatus where
  id : ℕ
  user_id : ℕ
  amount : ℚ
  start_date : ℤ
  end_date : ℤ
  category_id : ℕ
  name : Option String
  spent : ℚ
  remaining : ℚ
  percentage_used : ℚ
  category : Category
  deriving DecidableEq, Repr

/-- One iteration of the `get_budget_status` loop (budgets.py lines 101–132).
The category is looked up by id alone (no owner filter); when `first()`
yields `None`, constructing `BudgetStatus(category=None)` raises a pydantic
validation error because the field is required — modelled as a 500. -/
def budget_status_row (u : ℕ) (db : DB) (b : Budget) : Except HError BudgetStatus :=
  let spent := sum_amounts (db.transactions.filter
    (budget_window_filter u b.category_id b.start_date b.end_date))
  let remaining := b.amount - spent
  let percentage_used := if b.amount > 0 then spent / b.amount * 100 else 0
  match db.categories.find? (fun c => c.id == b.category_id) with
  | none => .error ⟨500, "pydantic ValidationError: BudgetStatus.category is required"⟩
  | some c =>
    .ok ⟨b.id, b.user_id, b.amount, b.start_date, b.end_date, b.category_id,
      b.name, spent, remaining, percentage_used, c⟩

/-- `get_budget_status` (budgets.py lines 77–134): the user's budgets,
restricted to currently active ones when `active_only`, each expanded to a
`BudgetStatus`. -/
def get_budget_status (today : ℤ) (u : ℕ) (active_only : Bool) (db : DB) :
    Except HError (List BudgetStatus) :=
  let budgets := db.budgets.filter (fun b =>
    b.user_id == u &&
      (!active_only || (decide (b.start_date ≤ today) && decide (b.end_date ≥ today))))
  mapE (budget_status_row u db) budgets

/-- One entry of the `budget_performance` response (reports.py lines
248–264). -/
structure BudgetPerformance where
  budget_id : ℕ
  budget_name : String
  category : String
  start_date : ℤ
  end_date : ℤ
  is_active : Bool
  budget_amount : ℚ
  spent : ℚ
  remaining : ℚ
  percentage_used : ℚ
  status : String
  days_remaining : ℤ
  daily_burn_rate : ℚ
  forecast_end_amount : ℚ
  forecast_status : String
  deriving DecidableEq, Repr

/-- One iteration of the `budget_performance` loop (reports.py lines
213–264).  `category.name` is dereferenced unconditionally, so a missing
category row is an uncaught `AttributeError` — modelled as a 500.
`budget.name or f"Budget for {...}"` treats `None` and `""` as falsy. -/
def budget_performance_row (today : ℤ) (u : ℕ) (db : DB) (b : Budget) :
    Except HError BudgetPerformance :=
  match db.categories.find? (fun c => c.id == b.category_id) with
  | none => .error ⟨500, "AttributeError: NoneType object has no attribute name"⟩
  | some category =>
    let spent := sum_amounts (db.transactions.filter
      (budget_window_filter u b.category_id b.start_date b.end_date))
    let remaining := b.amount - spent
    let percentage_used := if b.amount > 0 then spent / b.amount * 100 else 0
    let status := if percentage_used ≤ 100 then "On Track" else "Over Budget"
    let is_active := decide (b.start_date ≤ today) && decide (today ≤ b.end_date)
    let days_remaining : ℤ := if is_active then b.end_date - today else 0
    let total_days := b.end_date - b.start_date
    let days_elapsed := min (today - b.start_date) total_days
    let daily_burn_rate := if days_elapsed > 0 then spent / (days_elapsed : ℚ) else 0
    let forecast_end_amount :=
      if days_elapsed > 0 then spent + daily_burn_rate * (days_remaining : ℚ) else 0
    let forecast_status :=
      if days_elapsed > 0 then
        if forecast_end_amount ≤ b.amount then "Under Budget" else "Projected Over Budget"
      else "Not Started"
    let default_name := "Budget for " ++ category.name
    .ok ⟨b.id,
      (match b.name with
       | none => default_name
       | some n => if n == "" then default_name else n),
      category.name, b.start_date, b.end_date, is_active, b.amount, spent,
      remaining, percentage_used, status,
      (if days_remaining > 0 then days_remaining else 0),
      daily_burn_rate, forecast_end_amount, forecast_status⟩

/-- `budget_performance` (reports.py lines 201–268): every budget of the
user (no activity filter). -/
def budget_performance (today : ℤ) (u : ℕ) (db : DB) :
    Except HError (List BudgetPerformance) :=
  mapE (budget_performance_row today u db) (db.budgets.filter (fun b => b.user_id == u))

/-! ## Spending-by-category report (`reports.py` lines 20–78) -/

/-- One `GROUP BY (Category.id, Category.name)` row of the
spending-by-category query. -/
structure CatTotal where
  category_id : ℕ
  category_name : String
  total : ℚ
  deriving DecidableEq, Repr

/-- One entry of the response after the percentage pass. -/
structure CatTotalPct where
  category_id : ℕ
  category_name : String
  total : ℚ
  percentage : ℚ
  deriving DecidableEq, Repr

/-- The `spending_by_category` response object. -/
structure SpendingReport where
  start_date : ℤ
  end_date : ℤ
  total_spending : ℚ
  spending_by_category : List CatTotalPct
  deriving DecidableEq, Repr

/-- The transactions of user `u` joined to category `c` inside the window
`[s, e]` (join on `Category.id == Transaction.category_id`; the category row
itself is not owner-filtered). -/
def joined_transactions (u : ℕ) (db : DB) (c : Category) (s e : ℤ) :
    List Transaction :=
  db.transactions.filter (fun t =>
    c.id == t.category_id && t.user_id == u &&
      decide (s ≤ t.date.day) && decide (t.date.day ≤ e))

/-- `spending_by_category` with an explicit window (the route defaults the
window to first-of-current-month .. today before this point): inner-join
group-by rows, ordered by total descending, then a percentage pass against
the grand total. -/
def spending_by_category (s e : ℤ) (u : ℕ) (db : DB) : SpendingReport :=
  let rows := (db.categories.filter
      (fun c => !(joined_transactions u db c s e).isEmpty)).map
    (fun c => CatTotal.mk c.id c.name (sum_amounts (joined_transactions u db c s e)))
  let sorted := rows.insertionSort (fun a b => b.total ≤ a.total)
  let total_spending := (sorted.map (·.total)).sum
  let data := sorted.map (fun r =>
    CatTotalPct.mk r.category_id r.category_name r.total
      (if total_spending > 0 then r.total / total_spending * 100 else 0))
  ⟨s, e, total_spending, data⟩

/-! ## Spending insights (`reports.py` lines 270–344)

The route first derives calendar boundaries from `date.today()`
(`first_of_month`, `last_month_start`, `last_month_end`, `monthrange` for
`days_in_month`); that calendar glue is passed here as explicit day-index
arguments and the aggregation below follows the source from line 283 on. -/

/-- Sum of the user's transaction amounts with `func.date(date)` in
`[s, e]`. -/
def window_sum (u : ℕ) (db : DB) (s e : ℤ) : ℚ :=
  sum_amounts (db.transactions.filter (fun t =>
    t.user_id == u && decide (s ≤ t.date.day) && decide (t.date.day ≤ e)))

/-- The `(Category.name, total)` group rows of the biggest-expense query
(join on category id, group by category name), ordered descending; the
route keeps only `.first()`. -/
def biggest_category_rows (u : ℕ) (db : DB) (s e : ℤ) : List (String × ℚ) :=
  let joined := db.transactions.filterMap (fun t =>
    if t.user_id == u && decide (s ≤ t.date.day) && decide (t.date.day ≤ e) then
      (db.categories.find? (fun c => c.id == t.category_id)).map
        (fun c => (c.name, t.amount))
    else none)
  let names := (joined.map (·.1)).dedup
  let rows := names.map (fun n => (n, ((joined.filter (·.1 == n)).map (·.2)).sum))
  rows.insertionSort (fun a b => b.2 ≤ a.2)

/-- The `spending_insights` response object. -/
structure Insights where
  this_month_spending : ℚ
  last_month_spending : ℚ
  month_over_month_change : ℚ
  biggest_expense_category : String
  biggest_expense_amount : ℚ
  average_daily_spending : ℚ
  transaction_count : ℕ
  average_transaction_amount : ℚ
  days_elapsed : ℤ
  days_in_month : ℤ
  deriving DecidableEq, Repr

/-- `spending_insights` (reports.py lines 270–344), with the calendar
boundaries as arguments. -/
def spending_insights (today first_of_month last_month_start last_month_end
    days_in_month : ℤ) (u : ℕ) (db : DB) : Insights :=
  let this_month_spending := window_sum u db first_of_month today
  let last_month_spending := window_sum u db last_month_start last_month_end
  let mom_change :=
    if last_month_spending > 0 then
      (this_month_spending - last_month_spending) / last_month_spending * 100
    else 0
  let biggest := (biggest_category_rows u db first_of_month today).head?
  let days_elapsed := (today - first_of_month) + 1
  let avg_daily_spending :=
    if days_elapsed > 0 then this_month_spending / (days_elapsed : ℚ) else 0
  let transaction_count := (db.transactions.filter (fun t =>
    t.user_id == u && decide (first_of_month ≤ t.date.day) &&
      decide (t.date.day ≤ today))).length
  let avg_transaction :=
    if transaction_count > 0 then this_month_spending / (transaction_count : ℚ)
    else 0
  ⟨this_month_spending, last_month_spending, mom_change,
    (match biggest with | some r => r.1 | none => "No transactions"),
    (match biggest with | some r => r.2 | none => 0),
    avg_daily_spending, transaction_count, avg_transaction,
    days_elapsed, days_in_month⟩

/-! ## Concrete stores and payloads used by witnesses and counterexamples -/

/-- A store containing only entities of user 2, each with id 1, used to
witness the cross-user read behaviour for user 1. -/
def other_user_db : DB :=
  ⟨[⟨1, "Food", none, 2⟩],
   [⟨1, 10, "coffee", 1, ⟨5, 0⟩, 2⟩],
   [⟨1, 100, 0, 30, 1, 2, none⟩]⟩

/-- One user, one category, one in-window transaction of 30, one active
budget of 100 over days [10, 20]. -/
def metrics_db : DB :=
  ⟨[⟨3, "Food", none, 1⟩],
   [⟨1, 30, "groceries", 3, ⟨12, 0⟩, 1⟩],
   [⟨1, 100, 10, 20, 3, 1, none⟩]⟩

/-- The status row the route computes on `metrics_db` at day 15. -/
def metrics_row : BudgetStatus :=
  ⟨1, 1, 100, 10, 20, 3, none, 30, 70, 30, ⟨3, "Food", none, 1⟩⟩

/-- A store whose only budget references category 7 and whose category list
still contains it, before deletion. -/
def pre_delete_db : DB :=
  ⟨[⟨7, "Stuff", none, 1⟩], [], [⟨1, 100, 0, 10, 7, 1, none⟩]⟩

/-- `pre_delete_db` after `delete_category` removed category 7: the budget
now dangles. -/
def post_delete_db : DB :=
  ⟨[], [], [⟨1, 100, 0, 10, 7, 1, none⟩]⟩

/-- Store for the C2 counterexample: two non-overlapping budgets of user 1
for category 5. -/
def overlap_db : DB :=
  ⟨[⟨5, "Food", none, 1⟩], [],
   [⟨1, 100, 10, 20, 5, 1, none⟩, ⟨2, 100, 30, 40, 5, 1, none⟩]⟩

/-- Update payload moving budget 2's window to [15, 35], overlapping
budget 1's [10, 20]. -/
def overlap_update_input : BudgetCreate := ⟨50, 5, some 15, 35, none⟩

/-- `overlap_db` after the update: budgets [10,20] and [15,35] overlap for
the same (user, category). -/
def overlap_db_after : DB :=
  ⟨[⟨5, "Food", none, 1⟩], [],
   [⟨1, 100, 10, 20, 5, 1, none⟩, ⟨2, 50, 15, 35, 5, 1, none⟩]⟩

/-- The first budget row of `overlap_db_after`. -/
def overlap_b1 : Budget := ⟨1, 100, 10, 20, 5, 1, none⟩

/-- The updated second budget row of `overlap_db_after`. -/
def overlap_b2 : Budget := ⟨2, 50, 15, 35, 5, 1, none⟩

/-- Store for the specification's overlap scenario: an existing budget for
category 5 over days [1, 31] (January). -/
def january_db : DB :=
  ⟨[⟨5, "Food", none, 1⟩], [], [⟨1, 100, 1, 31, 5, 1, none⟩]⟩

/-- A second budget request over days [15, 46] (Jan 15 – Feb 15). -/
def january_overlap_input : BudgetCreate := ⟨50, 5, some 15, 46, none⟩

/-- Store for the C4 counterexample: one category and one active budget of
500 over days [90, 300]; no transactions yet. -/
def unvalidated_db : DB :=
  ⟨[⟨3, "Food", none, 1⟩], [], [⟨1, 500, 90, 300, 3, 1, none⟩]⟩

/-- A payload violating every declared constraint: non-positive amount,
1-character description, future date (day 200, "now" being day 100). -/
def bad_input : TransactionCreate := ⟨-5, "x", 3, some ⟨200, 0⟩⟩

/-- `unvalidated_db` after the invalid create succeeded. -/
def unvalidated_db_after : DB :=
  ⟨[⟨3, "Food", none, 1⟩], [⟨1, -5, "x", 3, ⟨200, 0⟩, 1⟩],
   [⟨1, 500, 90, 300, 3, 1, none⟩]⟩

/-- Two categories of user 1 with in-window spending 30 and 10. -/
def spend_db : DB :=
  ⟨[⟨1, "A", none, 1⟩, ⟨2, "B", none, 1⟩],
   [⟨1, 30, "thirty", 1, ⟨5, 0⟩, 1⟩, ⟨2, 10, "ten", 2, ⟨6, 0⟩, 1⟩],
   []⟩

/-- The performance row `budget_performance` computes on `metrics_db` at
day 5, before the budget window opens: `days_elapsed = min(-5, 10) ≤ 0`. -/
def perf_not_started : BudgetPerformance :=
  ⟨1, "Budget for Food", "Food", 10, 20, false, 100, 30, 70, 30, "On Track",
    0, 0, 0, "Not Started"⟩

instance : IsTotal CatTotal (fun a b => b.total ≤ a.total) :=
  ⟨fun a b => le_total b.total a.total⟩

instance : IsTrans CatTotal (fun a b => b.total ≤ a.total) :=
  ⟨fun _ _ _ h1 h2 => le_trans h2 h1⟩

/-! ## Helper lemmas -/

theorem RLState.get_set_self (st : RLState) (ip : String) (l : List ℚ) :
    (st.set ip l).get ip = l := by
  induction st with
  | nil => simp [RLState.set, RLState.get]
  | cons p rest ih =>
    by_cases h : p.1 = ip
    · simp [RLState.set, RLState.get, h]
    · simpa [RLState.set, RLState.get, h] using ih

theorem RLState.get_set_ne (st : RLState) (ip ip' : String) (l : List ℚ)
    (h : ip' ≠ ip) : (st.set ip l).get ip' = st.get ip' := by
  have hne : ¬(ip = ip') := fun e => h e.symm
  induction st with
  | nil => simp [RLState.set, RLState.get, hne]
  | cons p rest ih =>
    by_cases hp : p.1 = ip
    · have hp' : ¬(p.1 = ip') := by rw [hp]; exact hne
      simp [RLState.set, RLState.get, hp, hne, hp']
    · by_cases hq : p.1 = ip'
      · simp [RLState.set, RLState.get, hp, hq, h]
      · simpa [RLState.set, RLState.get, hp, hq] using ih

/-! ## Claim theorems -/

/-- C3: the specification's month-borrowing rule
`new_month = ((current_month - months - 1) mod 12) + 1` (March, 8 trailing
months ⇒ July of the previous year) is implemented by `transaction_trends`,
but `monthly_spending` diverges: at month 3, months=8 it computes August of
the **next** year (its year adjustment `today.year - ((today.month - months)
// 12)` subtracts a negative floor quotient), so its window start lies in
the future. -/
theorem monthly_spending_start_bug :
    monthly_spending_start 2024 3 8 = (2025, 8) ∧
    spec_month_rule 3 8 = 7 ∧
    transaction_trends_start 2024 3 8 = (2023, 7) ∧
    (monthly_spending_start 2024 3 8).2 ≠ spec_month_rule 3 8 ∧
    (monthly_spending_start 2024 3 8).1 ≠ 2023 := by decide

/-- C7: a request is rejected exactly when the count of the client's
recorded timestamps within the last 60 seconds has reached the ceiling;
an accepted request's timestamp is appended; and the concrete sliding-window
scenario: with the default ceiling 60, requests at seconds 0..59 all pass,
a 61st request at second 59 is rejected, and a request at second 61 (the
window having slid past the earliest timestamps) passes again. -/
theorem is_rate_limited_window_decision :
    (∀ (limit : ℕ) (st : RLState) (ip : String) (t : ℚ),
      ((is_rate_limited limit st ip t).1 = true ↔
        limit ≤ ((st.get ip).filter (fun x => x > t - 60)).length) ∧
      ((is_rate_limited limit st ip t).1 = false →
        (is_rate_limited limit st ip t).2.get ip =
          (st.get ip).filter (fun x => x > t - 60) ++ [t])) ∧
    (run_limiter 60 []
        (((List.range 60).map (fun i => ("client", (i : ℚ)))) ++
          [("client", 59), ("client", 61)])).1 =
      List.replicate 60 false ++ [true, false] := by
  constructor
  · intro limit st ip t
    by_cases h : limit ≤ ((st.get ip).filter (fun x => x > t - 60)).length
    · simp [is_rate_limited, ge_iff_le, h, RLState.get_set_self]
    · simp [is_rate_limited, ge_iff_le, h, RLState.get_set_self]
  · with_unfolding_all decide

/-- Witness for C7: a first request from a fresh client is accepted and its
timestamp recorded. -/
theorem is_rate_limited_window_decision_witness :
    (is_rate_limited 1 [] "a" 0).2.get "a" = [0] := by
  have h := (is_rate_limited_window_decision.1 1 [] "a" 0).2
    (by with_unfolding_all decide)
  rw [h]
  simp [RLState.get]

theorem step_state_bounds
    (limit : ℕ) (st : RLState) (ip : String) (t : ℚ)
    (hlen : ∀ ip', (st.get ip').length ≤ limit) :
    (∀ ip', ((is_rate_limited limit st ip t).2.get ip').length ≤ limit) ∧
    (∀ x ∈ (is_rate_limited limit st ip t).2.get ip, t - 60 < x) ∧
    ((∀ x ∈ st.get ip, x ≤ t) →
      ∀ x ∈ (is_rate_limited limit st ip t).2.get ip, x ≤ t) ∧
    ((is_rate_limited limit st ip t).1 = true →
      (is_rate_limited limit st ip t).2.get ip =
        (st.get ip).filter (fun x => x > t - 60)) := by
  by_cases h : limit ≤ ((st.get ip).filter (fun x => x > t - 60)).length
  · have h2 : is_rate_limited limit st ip t =
        (true, st.set ip ((st.get ip).filter (fun x => x > t - 60))) := by
      simp [is_rate_limited, ge_iff_le, h]
    rw [h2]
    refine ⟨?_, ?_, ?_, ?_⟩
    · intro ip'
      by_cases hip : ip' = ip
      · subst hip
        rw [RLState.get_set_self]
        exact le_trans (List.length_filter_le _ _) (hlen ip')
      · rw [RLState.get_set_ne _ _ _ _ hip]
        exact hlen ip'
    · intro x hx
      rw [RLState.get_set_self] at hx
      simpa using (List.mem_filter.mp hx).2
    · intro hall x hx
      rw [RLState.get_set_self] at hx
      exact hall x (List.mem_filter.mp hx).1
    · intro _
      exact RLState.get_set_self _ _ _
  · have h2 : is_rate_limited limit st ip t =
        (false, st.set ip ((st.get ip).filter (fun x => x > t - 60) ++ [t])) := by
      simp [is_rate_limited, ge_iff_le, h]
    rw [h2]
    refine ⟨?_, ?_, ?_, ?_⟩
    · intro ip'
      by_cases hip : ip' = ip
      · subst hip
        rw [RLState.get_set_self]
        simp only [List.length_append, List.length_cons, List.length_nil]
        exact Nat.succ_le_of_lt (Nat.lt_of_not_le h)
      · rw [RLState.get_set_ne _ _ _ _ hip]
        exact hlen ip'
    · intro x hx
      rw [RLState.get_set_self] at hx
      rcases List.mem_append.mp hx with hx | hx
      · simpa using (List.mem_filter.mp hx).2
      · rw [List.mem_singleton.mp hx]
        exact sub_lt_self t (by norm_num)
    · intro hall x hx
      rw [RLState.get_set_self] at hx
      rcases List.mem_append.mp hx with hx | hx
      · exact hall x (List.mem_filter.mp hx).1
      · rw [List.mem_singleton.mp hx]
    · intro hc
      simp at hc

/-- Witness for C10: the bound instantiated for a first call from a fresh
client with ceiling 1. -/
theorem run_limiter_length_invariant (limit : ℕ) (reqs : List (String × ℚ)) :
    ∀ (st : RLState), (∀ ip', (st.get ip').length ≤ limit) →
      ∀ ip', (((run_limiter limit st reqs).2).get ip').length ≤ limit := by
  induction reqs with
  | nil => intro st h ip'; simpa [run_limiter] using h ip'
  | cons a rest ih =>
    intro st h ip'
    exact ih (is_rate_limited limit st a.1 a.2).2
      ((step_state_bounds limit st a.1 a.2 h).1) ip'

/-- C10: after a limiter call for client `ip` at time `t` — the stored lists
respecting the ceiling beforehand — every stored list still has length at
most `requests_per_minute`, the client's list holds only timestamps from the
last 60 seconds (and, when past timestamps never exceed `t`, none from the
future), and a rejected request's timestamp is not recorded (the client's
list is exactly the pruned old list); consequently, along any request
sequence starting from the empty table, no client's list ever exceeds the
ceiling. -/
theorem is_rate_limited_state_bounds :
    (∀ (limit : ℕ) (st : RLState) (ip : String) (t : ℚ),
      (∀ ip', (st.get ip').length ≤ limit) →
      (∀ ip', ((is_rate_limited limit st ip t).2.get ip').length ≤ limit) ∧
      (∀ x ∈ (is_rate_limited limit st ip t).2.get ip, t - 60 < x) ∧
      ((∀ x ∈ st.get ip, x ≤ t) →
        ∀ x ∈ (is_rate_limited limit st ip t).2.get ip, x ≤ t) ∧
      ((is_rate_limited limit st ip t).1 = true →
        (is_rate_limited limit st ip t).2.get ip =
          (st.get ip).filter (fun x => x > t - 60))) ∧
    (∀ (limit : ℕ) (reqs : List (String × ℚ)) (ip : String),
      (((run_limiter limit [] reqs).2).get ip).length ≤ limit) :=
  ⟨step_state_bounds,
   fun limit reqs ip =>
     run_limiter_length_invariant limit reqs []
       (fun ip' => by simp [RLState.get]) ip⟩

theorem is_rate_limited_state_bounds_witness :
    ((is_rate_limited 1 [] "a" 5).2.get "a").length ≤ 1 :=
  (is_rate_limited_state_bounds.1 1 [] "a" 5
    (fun ip' => by simp [RLState.get])).1 "a"

theorem mapE_ok_mem {α β : Type} (f : α → Except HError β) (l : List α)
    (out : List β) (h : mapE f l = .ok out) :
    ∀ y ∈ out, ∃ x ∈ l, f x = .ok y := by
  induction l generalizing out with
  | nil =>
    simp [mapE] at h
    subst h
    intro y hy
    cases hy
  | cons a as ih =>
    unfold mapE at h
    cases hfa : f a with
    | error e => rw [hfa] at h; cases h
    | ok b =>
      rw [hfa] at h
      cases hrest : mapE f as with
      | error e => rw [hrest] at h; cases h
      | ok bs =>
        rw [hrest] at h
        simp at h
        subst h
        intro y hy
        rcases List.mem_cons.mp hy with hy | hy
        · exact ⟨a, List.mem_cons_self a as, by rw [hfa, hy]⟩
        · obtain ⟨x, hx, hfx⟩ := ih bs hrest y hy
          exact ⟨x, List.mem_cons_of_mem a hx, hfx⟩

theorem mapE_error_of_mem {α β : Type} (f : α → Except HError β) (l : List α)
    (x : α) (hx : x ∈ l) (e : HError) (hfx : f x = .error e) :
    ∃ e', mapE f l = .error e' := by
  induction l with
  | nil => cases hx
  | cons a as ih =>
    unfold mapE
    cases hfa : f a with
    | error e0 => exact ⟨e0, rfl⟩
    | ok b =>
      rcases List.mem_cons.mp hx with hax | hax
      · rw [← hax, hfx] at hfa; cases hfa
      · obtain ⟨e', he'⟩ := ih hax
        rw [he']
        exact ⟨e', rfl⟩

/-- C5: single-entity reads are owner-scoped: whenever no row with the
requested id belongs to the caller — whether the id is absent altogether or
belongs to a different user — the route returns the same not-found error
(a fixed function of the requested id only), and a successful read only ever
returns a row owned by the caller with the requested id. -/
theorem cross_user_reads_not_found :
    ∀ (u : ℕ) (db : DB) (i : ℕ),
      ((¬ ∃ b ∈ db.budgets, b.id = i ∧ b.user_id = u) →
        read_budget u db i = .error ⟨404, "Budget not found"⟩) ∧
      (∀ b, read_budget u db i = .ok b →
        b ∈ db.budgets ∧ b.id = i ∧ b.user_id = u) ∧
      ((¬ ∃ t ∈ db.transactions, t.id = i ∧ t.user_id = u) →
        read_transaction u db i =
          .error ⟨404, "Transaction with ID " ++ toString i ++ " not found"⟩) ∧
      (∀ t, read_transaction u db i = .ok t →
        t ∈ db.transactions ∧ t.id = i ∧ t.user_id = u) ∧
      ((¬ ∃ c ∈ db.categories, c.id = i ∧ c.user_id = u) →
        read_category u db i = .error ⟨404, "Category not found"⟩) ∧
      (∀ c, read_category u db i = .ok c →
        c ∈ db.categories ∧ c.id = i ∧ c.user_id = u) := by
  intro u db i
  refine ⟨?_, ?_, ?_, ?_, ?_, ?_⟩
  · intro hno
    have hnone : db.budgets.find? (fun b => b.id == i && b.user_id == u) = none :=
      List.find?_eq_none.mpr (fun x hx hpx => hno ⟨x, hx, by simpa using hpx⟩)
    simp [read_budget, hnone]
  · intro b hok
    unfold read_budget at hok
    cases hf : db.budgets.find? (fun b => b.id == i && b.user_id == u) with
    | none => rw [hf] at hok; cases hok
    | some b' =>
      rw [hf] at hok
      have hb' : b' = b := by injection hok
      subst hb'
      exact ⟨List.mem_of_find?_eq_some hf, by simpa using List.find?_some hf⟩
  · intro hno
    have hnone : db.transactions.find? (fun t => t.id == i && t.user_id == u) = none :=
      List.find?_eq_none.mpr (fun x hx hpx => hno ⟨x, hx, by simpa using hpx⟩)
    simp [read_transaction, hnone]
  · intro t hok
    unfold read_transaction at hok
    cases hf : db.transactions.find? (fun t => t.id == i && t.user_id == u) with
    | none => rw [hf] at hok; cases hok
    | some t' =>
      rw [hf] at hok
      have ht' : t' = t := by injection hok
      subst ht'
      exact ⟨List.mem_of_find?_eq_some hf, by simpa using List.find?_some hf⟩
  · intro hno
    have hnone : db.categories.find? (fun c => c.id == i && c.user_id == u) = none :=
      List.find?_eq_none.mpr (fun x hx hpx => hno ⟨x, hx, by simpa using hpx⟩)
    simp [read_category, hnone]
  · intro c hok
    unfold read_category at hok
    cases hf : db.categories.find? (fun c => c.id == i && c.user_id == u) with
    | none => rw [hf] at hok; cases hok
    | some c' =>
      rw [hf] at hok
      have hc' : c' = c := by injection hok
      subst hc'
      exact ⟨List.mem_of_find?_eq_some hf, by simpa using List.find?_some hf⟩

/-- Witness for C5: user 1 reading user 2's budget, transaction and category
(all with id 1) receives the same 404s produced for absent ids. -/
theorem cross_user_reads_not_found_witness :
    read_budget 1 other_user_db 1 = .error ⟨404, "Budget not found"⟩ ∧
    read_transaction 1 other_user_db 1 =
      .error ⟨404, "Transaction with ID " ++ toString 1 ++ " not found"⟩ ∧
    read_category 1 other_user_db 1 = .error ⟨404, "Category not found"⟩ := by
  refine ⟨(cross_user_reads_not_found 1 other_user_db 1).1 ?_,
    (cross_user_reads_not_found 1 other_user_db 1).2.2.1 ?_,
    (cross_user_reads_not_found 1 other_user_db 1).2.2.2.2.1 ?_⟩
  · simp [other_user_db]
  · simp [other_user_db]
  · simp [other_user_db]

/-- C1: every row returned by the budget-status and budget-performance
operations satisfies `remaining = amount - spent` and
`percentage_used = spent/amount*100` when `amount > 0` (else 0), with
`spent` the sum of the owner's transactions in the budget's category whose
date part lies within `[start_date, end_date]` inclusive. -/
theorem budget_metrics_formulas :
    ∀ (today : ℤ) (u : ℕ) (ao : Bool) (db : DB),
      (∀ l, get_budget_status today u ao db = .ok l →
        ∀ st ∈ l,
          st.spent = sum_amounts (db.transactions.filter
            (budget_window_filter u st.category_id st.start_date st.end_date)) ∧
          st.remaining = st.amount - st.spent ∧
          st.percentage_used =
            (if st.amount > 0 then st.spent / st.amount * 100 else 0)) ∧
      (∀ l, budget_performance today u db = .ok l →
        ∀ p ∈ l, ∃ b ∈ db.budgets, b.user_id = u ∧
          p.start_date = b.start_date ∧ p.end_date = b.end_date ∧
          p.budget_amount = b.amount ∧
          p.spent = sum_amounts (db.transactions.filter
            (budget_window_filter u b.category_id b.start_date b.end_date)) ∧
          p.remaining = p.budget_amount - p.spent ∧
          p.percentage_used =
            (if p.budget_amount > 0 then p.spent / p.budget_amount * 100 else 0)) := by
  intro today u ao db
  constructor
  · intro l hl st hst
    obtain ⟨b, _, hrow⟩ := mapE_ok_mem _ _ _ hl st hst
    unfold budget_status_row at hrow
    cases hf : db.categories.find? (fun c => c.id == b.category_id) with
    | none => rw [hf] at hrow; cases hrow
    | some c =>
      rw [hf] at hrow
      injection hrow with h
      subst h
      exact ⟨rfl, rfl, rfl⟩
  · intro l hl p hp
    obtain ⟨b, hb, hrow⟩ := mapE_ok_mem _ _ _ hl p hp
    have hb' := List.mem_filter.mp hb
    have hu : b.user_id = u := by simpa using hb'.2
    unfold budget_performance_row at hrow
    cases hf : db.categories.find? (fun c => c.id == b.category_id) with
    | none => rw [hf] at hrow; cases hrow
    | some c =>
      rw [hf] at hrow
      injection hrow with h
      subst h
      exact ⟨b, hb'.1, hu, rfl, rfl, rfl, rfl, rfl, rfl⟩

/-- Witness for C1: the formulas instantiated on the concrete store
(`spent = 30`, `remaining = 70`, `percentage_used = 30`). -/
theorem budget_metrics_formulas_witness :
    metrics_row.remaining = metrics_row.amount - metrics_row.spent ∧
    metrics_row.percentage_used =
      (if metrics_row.amount > 0 then metrics_row.spent / metrics_row.amount * 100
       else 0) :=
  ⟨((budget_metrics_formulas 15 1 true metrics_db).1 [metrics_row]
      (by with_unfolding_all rfl) metrics_row (by simp)).2.1,
   ((budget_metrics_formulas 15 1 true metrics_db).1 [metrics_row]
      (by with_unfolding_all rfl) metrics_row (by simp)).2.2⟩

/-- C8: the division sites of the reporting operations are guarded to yield
a defined zero: in budget-performance, a non-positive `days_elapsed`
(`min(today - start_date, end_date - start_date)`) forces
`daily_burn_rate = 0`, `forecast_end_amount = 0` and
`forecast_status = "Not Started"`; in spending-insights a zero prior-month
total forces a zero month-over-month change and a zero transaction count
forces a zero average transaction amount. -/
theorem division_guards :
    (∀ (today : ℤ) (u : ℕ) (db : DB) (l : List BudgetPerformance),
      budget_performance today u db = .ok l →
      ∀ p ∈ l,
        min (today - p.start_date) (p.end_date - p.start_date) ≤ 0 →
        p.daily_burn_rate = 0 ∧ p.forecast_end_amount = 0 ∧
        p.forecast_status = "Not Started") ∧
    (∀ (today first lms lme dim : ℤ) (u : ℕ) (db : DB),
      ((spending_insights today first lms lme dim u db).last_month_spending = 0 →
        (spending_insights today first lms lme dim u db).month_over_month_change = 0) ∧
      ((spending_insights today first lms lme dim u db).transaction_count = 0 →
        (spending_insights today first lms lme dim u db).average_transaction_amount = 0)) := by
  constructor
  · intro today u db l hl p hp hmin
    obtain ⟨b, hb, hrow⟩ := mapE_ok_mem _ _ _ hl p hp
    unfold budget_performance_row at hrow
    cases hf : db.categories.find? (fun c => c.id == b.category_id) with
    | none => rw [hf] at hrow; cases hrow
    | some c =>
      rw [hf] at hrow
      injection hrow with h
      subst h
      dsimp only at hmin ⊢
      have hne : ¬ (min (today - b.start_date) (b.end_date - b.start_date) > 0) :=
        not_lt.mpr hmin
      refine ⟨by simp [hne], by simp [hne], by simp [hne]⟩
  · intro today first lms lme dim u db
    constructor
    · intro hlast
      unfold spending_insights at hlast ⊢
      dsimp only at hlast ⊢
      rw [hlast]
      simp
    · intro hcnt
      unfold spending_insights at hcnt ⊢
      dsimp only at hcnt ⊢
      rw [hcnt]
      simp


/-- Witness for C8: on the concrete store at day 5 (before the budget
starts) the burn rate is 0 with status "Not Started", and on a store with no
transactions the month-over-month change and average transaction amount are
both 0. -/
theorem division_guards_witness :
    perf_not_started.daily_burn_rate = 0 ∧
    perf_not_started.forecast_status = "Not Started" ∧
    (spending_insights 5 1 2 3 31 1 post_delete_db).month_over_month_change = 0 ∧
    (spending_insights 5 1 2 3 31 1 post_delete_db).average_transaction_amount = 0 := by
  have h1 := division_guards.1 5 1 metrics_db [perf_not_started]
    (by with_unfolding_all rfl) perf_not_started (by simp)
    (by with_unfolding_all decide)
  have h2 := division_guards.2 5 1 2 3 31 1 post_delete_db
  exact ⟨h1.1, h1.2.2, h2.1 (by with_unfolding_all rfl),
    h2.2 (by with_unfolding_all rfl)⟩

/-- C9: deleting a category performs no referential check (budgets and
transactions that reference it survive untouched), and once a user's budget
references a category id matching no category row, budget-performance fails
(uncaught `AttributeError` on `category.name`) and budget-status fails
(pydantic rejects `category=None`) whenever that budget is selected, instead
of returning a result. -/
theorem dangling_category_breaks_reports :
    ∀ (today : ℤ) (u : ℕ) (db : DB) (cid : ℕ),
      ((∃ c ∈ db.categories, c.id = cid ∧ c.user_id = u) →
        ∃ db', delete_category u db cid = .ok db' ∧
          db'.transactions = db.transactions ∧ db'.budgets = db.budgets) ∧
      (∀ b ∈ db.budgets, b.user_id = u →
        (∀ c ∈ db.categories, c.id ≠ b.category_id) →
        (∃ e, budget_performance today u db = .error e) ∧
        (∀ ao, (ao = false ∨ (b.start_date ≤ today ∧ b.end_date ≥ today)) →
          ∃ e, get_budget_status today u ao db = .error e)) := by
  intro today u db cid
  constructor
  · intro ⟨c, hc, hcid, hcu⟩
    unfold delete_category
    cases hf : db.categories.find? (fun c => c.id == cid && c.user_id == u) with
    | none =>
      exfalso
      have := List.find?_eq_none.mp hf c hc
      simp [hcid, hcu] at this
    | some c' => exact ⟨_, rfl, rfl, rfl⟩
  · intro b hb hu hno
    have hfnone : db.categories.find? (fun c => c.id == b.category_id) = none :=
      List.find?_eq_none.mpr (fun c hc => by simp [hno c hc])
    have hrow_err : budget_performance_row today u db b =
        .error ⟨500, "AttributeError: NoneType object has no attribute name"⟩ := by
      unfold budget_performance_row
      rw [hfnone]
    have hrow_err2 : budget_status_row u db b =
        .error ⟨500, "pydantic ValidationError: BudgetStatus.category is required"⟩ := by
      unfold budget_status_row
      rw [hfnone]
    constructor
    · have hmem : b ∈ db.budgets.filter (fun b => b.user_id == u) :=
        List.mem_filter.mpr ⟨hb, by simp [hu]⟩
      exact mapE_error_of_mem _ _ b hmem _ hrow_err
    · intro ao hao
      have hmem : b ∈ db.budgets.filter (fun b =>
          b.user_id == u &&
            (!ao || (decide (b.start_date ≤ today) && decide (b.end_date ≥ today)))) := by
        refine List.mem_filter.mpr ⟨hb, ?_⟩
        rcases hao with hao | ⟨h1, h2⟩
        · simp [hu, hao]
        · simp [hu, h1, h2]
      exact mapE_error_of_mem _ _ b hmem _ hrow_err2

/-- Witness for C9: on the concrete store, deleting category 7 succeeds and
leaves the referencing budget behind, after which both reports fail. -/
theorem dangling_category_breaks_reports_witness :
    (∃ db', delete_category 1 pre_delete_db 7 = .ok db' ∧
      db'.transactions = pre_delete_db.transactions ∧
      db'.budgets = pre_delete_db.budgets) ∧
    (∃ e, budget_performance 5 1 post_delete_db = .error e) ∧
    (∃ e, get_budget_status 5 1 true post_delete_db = .error e) := by
  refine ⟨(dangling_category_breaks_reports 5 1 pre_delete_db 7).1
      ⟨⟨7, "Stuff", none, 1⟩, by simp [pre_delete_db], rfl, rfl⟩, ?_, ?_⟩
  · exact ((dangling_category_breaks_reports 5 1 post_delete_db 7).2
      ⟨1, 100, 0, 10, 7, 1, none⟩ (by simp [post_delete_db]) rfl
      (by simp [post_delete_db])).1
  · exact ((dangling_category_breaks_reports 5 1 post_delete_db 7).2
      ⟨1, 100, 0, 10, 7, 1, none⟩ (by simp [post_delete_db]) rfl
      (by simp [post_delete_db])).2 true (Or.inr (by constructor <;> decide))


/-- C9 (counterexample to the unconditional reading): a state can contain a
dangling budget while `get_budget_status` still returns a result — with
`active_only = true` and the dangling budget's window not containing today,
the budget is never selected and no missing category is dereferenced. -/
theorem budget_status_skips_inactive_dangling :
    (∃ b ∈ post_delete_db.budgets,
      ∀ c ∈ post_delete_db.categories, c.id ≠ b.category_id) ∧
    get_budget_status 20 1 true post_delete_db = .ok [] := by
  with_unfolding_all decide

/-- C2 (counterexample): `update_budget` accepts a window that overlaps
another budget of the same user and category — no conflict error, and the
resulting store holds two overlapping budgets for (user 1, category 5),
violating the claimed invariant. -/
theorem update_budget_overlap_accepted :
    update_budget 1 overlap_db 2 overlap_update_input =
      .ok (overlap_db_after, overlap_b2) ∧
    overlap_b1 ∈ overlap_db_after.budgets ∧
    overlap_b2 ∈ overlap_db_after.budgets ∧
    overlap_b1 ≠ overlap_b2 ∧
    overlap_b1.category_id = overlap_b2.category_id ∧
    overlap_b1.user_id = overlap_b2.user_id ∧
    overlap_b1.end_date ≥ overlap_b2.start_date ∧
    overlap_b1.start_date ≤ overlap_b2.end_date := by
  with_unfolding_all decide

/-- C2 (amended): the overlap check
`existing.end_date >= new.start_date AND existing.start_date <= new.end_date`
is enforced at budget creation only — a creation whose (provided) window
overlaps an existing budget of the same user and category fails with the
conflict error and no state change — while `update_budget` performs no
overlap check at all: its only failures are 404s. -/
theorem budget_overlap_create_only :
    ∀ (today : ℤ) (u : ℕ) (db : DB) (inp : BudgetCreate) (s : ℤ),
      (inp.start_date = some s →
        (∃ c ∈ db.categories, c.id = inp.category_id ∧ c.user_id = u) →
        (∃ b ∈ db.budgets, b.category_id = inp.category_id ∧ b.user_id = u ∧
          b.end_date ≥ s ∧ b.start_date ≤ inp.end_date) →
        create_budget today u db inp =
          .error ⟨400, "A budget for this category and time period already exists"⟩) ∧
      (∀ bid e, update_budget u db bid inp = .error e → e.status = 404) := by
  intro today u db inp s
  constructor
  · intro hs hcat hover
    unfold create_budget
    cases hfc : db.categories.find? (fun c => c.id == inp.category_id && c.user_id == u) with
    | none =>
      exfalso
      obtain ⟨c, hc, h1, h2⟩ := hcat
      have := List.find?_eq_none.mp hfc c hc
      simp [h1, h2] at this
    | some c =>
      cases hfo : db.budgets.find? (budget_overlap u inp) with
      | none =>
        exfalso
        obtain ⟨b, hb, h1, h2, h3, h4⟩ := hover
        have := List.find?_eq_none.mp hfo b hb
        apply this
        simp [budget_overlap, hs, h1, h2, h3, h4]
      | some b => rfl
  · intro bid e h
    unfold update_budget at h
    cases hfb : db.budgets.find? (fun b => b.id == bid && b.user_id == u) with
    | none =>
      rw [hfb] at h
      injection h with h2
      rw [← h2]
    | some old =>
      rw [hfb] at h
      cases hfc : db.categories.find? (fun c => c.id == inp.category_id && c.user_id == u) with
      | none =>
        rw [hfc] at h
        injection h with h2
        rw [← h2]
      | some c =>
        rw [hfc] at h
        cases h

/-- Witness for C2 (amended): the scenario's overlapping creation is
rejected with the conflict error, and a failing update on an empty store
reports a 404. -/
theorem budget_overlap_create_only_witness :
    create_budget 0 1 january_db january_overlap_input =
      .error ⟨400, "A budget for this category and time period already exists"⟩ ∧
    (HError.mk 404 "Budget not found").status = 404 :=
  ⟨(budget_overlap_create_only 0 1 january_db january_overlap_input 15).1 rfl
      ⟨⟨5, "Food", none, 1⟩, by simp [january_db], rfl, rfl⟩
      ⟨⟨1, 100, 1, 31, 5, 1, none⟩, by simp [january_db], rfl, rfl, by decide, by decide⟩,
   (budget_overlap_create_only 0 1 ⟨[], [], []⟩ january_overlap_input 15).2 1
      ⟨404, "Budget not found"⟩ (by with_unfolding_all rfl)⟩

set_option maxRecDepth 4000 in
/-- C4 (counterexample): the create route accepts a payload that fails every
declared `TransactionBase` constraint — including a future date — stores it,
and the budget-status report then includes the future-dated transaction in
`spent`. -/
theorem create_transaction_accepts_invalid :
    transaction_base_valid ⟨100, 0⟩ (-5) "x" 3 (some ⟨200, 0⟩) = false ∧
    DateTime.lt ⟨100, 0⟩ ⟨200, 0⟩ = true ∧
    create_transaction ⟨100, 0⟩ 1 unvalidated_db bad_input =
      .ok (unvalidated_db_after, ⟨1, -5, "x", 3, ⟨200, 0⟩, 1⟩) ∧
    get_budget_status 100 1 true unvalidated_db_after =
      .ok [⟨1, 1, 500, 90, 300, 3, none, -5, 505, -1, ⟨3, "Food", none, 1⟩⟩] := by
  with_unfolding_all decide

/-- C4 (amended): the transaction create and update routes validate nothing
about the payload values (the declared constraints live on the unused
`TransactionBase` schema): given an owned category, any amount, description
and date — future dates and non-positive amounts included — are accepted and
stored verbatim. -/
theorem transaction_writes_accept_unvalidated :
    ∀ (now : DateTime) (u : ℕ) (db : DB) (inp : TransactionCreate),
      ((∃ c ∈ db.categories, c.id = inp.category_id ∧ c.user_id = u) →
        ∃ t, create_transaction now u db inp =
          .ok ({ db with transactions := db.transactions ++ [t] }, t) ∧
          t.amount = inp.amount ∧ t.description = inp.description ∧
          t.date = inp.date.getD now ∧ t.user_id = u) ∧
      (∀ tid,
        (∃ t0 ∈ db.transactions, t0.id = tid ∧ t0.user_id = u) →
        (∃ c ∈ db.categories, c.id = inp.category_id ∧ c.user_id = u) →
        ∃ db' t, update_transaction u db tid inp = .ok (db', t) ∧
          t.amount = inp.amount ∧ t.description = inp.description) := by
  intro now u db inp
  constructor
  · intro hcat
    unfold create_transaction
    cases hfc : db.categories.find? (fun c => c.id == inp.category_id && c.user_id == u) with
    | none =>
      exfalso
      obtain ⟨c, hc, h1, h2⟩ := hcat
      have := List.find?_eq_none.mp hfc c hc
      simp [h1, h2] at this
    | some c => exact ⟨_, rfl, rfl, rfl, rfl, rfl⟩
  · intro tid htx hcat
    unfold update_transaction
    cases hft : db.transactions.find? (fun t => t.id == tid && t.user_id == u) with
    | none =>
      exfalso
      obtain ⟨t0, ht, h1, h2⟩ := htx
      have := List.find?_eq_none.mp hft t0 ht
      simp [h1, h2] at this
    | some old =>
      cases hfc : db.categories.find? (fun c => c.id == inp.category_id && c.user_id == u) with
      | none =>
        exfalso
        obtain ⟨c, hc, h1, h2⟩ := hcat
        have := List.find?_eq_none.mp hfc c hc
        simp [h1, h2] at this
      | some c => exact ⟨_, _, rfl, rfl, rfl⟩

/-- Witness for C4 (amended): the invalid payload is accepted and stored
verbatim on the concrete store. -/
theorem transaction_writes_accept_unvalidated_witness :
    ∃ t, create_transaction ⟨100, 0⟩ 1 unvalidated_db bad_input =
      .ok ({ unvalidated_db with
             transactions := unvalidated_db.transactions ++ [t] }, t) ∧
      t.amount = bad_input.amount ∧ t.description = bad_input.description ∧
      t.date = bad_input.date.getD ⟨100, 0⟩ ∧ t.user_id = 1 :=
  (transaction_writes_accept_unvalidated ⟨100, 0⟩ 1 unvalidated_db bad_input).1
    ⟨⟨3, "Food", none, 1⟩, by simp [unvalidated_db], rfl, rfl⟩

theorem sum_map_div_mul (l : List ℚ) (G : ℚ) :
    (l.map (fun t => t / G * 100)).sum = l.sum / G * 100 := by
  induction l with
  | nil => simp
  | cons a as ih =>
    simp only [List.map_cons, List.sum_cons, ih]
    ring

theorem sum_pct_from_pointwise (L : List CatTotalPct) (G : ℚ) (hG : 0 < G)
    (hsum : (L.map (·.total)).sum = G)
    (hpt : ∀ item ∈ L, item.percentage = item.total / G * 100) :
    (L.map (·.percentage)).sum = 100 := by
  have hmap : L.map (·.percentage) = (L.map (·.total)).map (fun t => t / G * 100) := by
    rw [List.map_map]
    exact List.map_congr_left hpt
  rw [hmap, sum_map_div_mul, hsum, div_self (ne_of_gt hG), one_mul]

/-- C6: the spending-by-category report's grand total is the sum of the
group totals it returns, the groups are ordered descending by total, each
group's percentage is `total/grand*100` when the grand total is positive and
0 otherwise; hence the percentages sum to exactly 100 whenever the grand
total is positive and are all 0 when it is 0. -/
theorem spending_by_category_report_props :
    ∀ (s e : ℤ) (u : ℕ) (db : DB),
      (spending_by_category s e u db).total_spending =
        (((spending_by_category s e u db).spending_by_category).map (·.total)).sum ∧
      List.Sorted (fun a b : CatTotalPct => b.total ≤ a.total)
        (spending_by_category s e u db).spending_by_category ∧
      (∀ item ∈ (spending_by_category s e u db).spending_by_category,
        item.percentage =
          (if (spending_by_category s e u db).total_spending > 0
           then item.total / (spending_by_category s e u db).total_spending * 100
           else 0)) ∧
      ((spending_by_category s e u db).total_spending > 0 →
        (((spending_by_category s e u db).spending_by_category).map
          (·.percentage)).sum = 100) ∧
      ((spending_by_category s e u db).total_spending = 0 →
        ∀ item ∈ (spending_by_category s e u db).spending_by_category,
          item.percentage = 0) := by
  intro s e u db
  have h1 : (spending_by_category s e u db).total_spending =
      (((spending_by_category s e u db).spending_by_category).map (·.total)).sum := by
    show _ = ((List.map _ (List.map _ _)).sum : ℚ)
    rw [List.map_map]
    rfl
  have h3 : ∀ item ∈ (spending_by_category s e u db).spending_by_category,
      item.percentage =
        (if (spending_by_category s e u db).total_spending > 0
         then item.total / (spending_by_category s e u db).total_spending * 100
         else 0) := by
    intro item him
    obtain ⟨r, _, hr⟩ := List.mem_map.mp him
    rw [← hr]
    rfl
  refine ⟨h1, ?_, h3, ?_, ?_⟩
  · exact List.pairwise_map.mpr
      (List.sorted_insertionSort (fun a b : CatTotal => b.total ≤ a.total) _)
  · intro hG
    refine sum_pct_from_pointwise _ _ hG h1.symm ?_
    intro item him
    rw [h3 item him, if_pos hG]
  · intro hG0 item him
    rw [h3 item him, if_neg]
    rw [hG0]
    exact lt_irrefl 0

/-- Witness for C6: on the concrete store (grand total 40, groups 30 and 10,
percentages 75 and 25) the percentages sum to 100. -/
theorem spending_by_category_report_props_witness :
    (((spending_by_category 0 10 1 spend_db).spending_by_category).map
      (·.percentage)).sum = 100 :=
  (spending_by_category_report_props 0 10 1 spend_db).2.2.2.1
    (by with_unfolding_all decide)

end App
